import Mathlib

/-!
Shallow embedding of `src/app.py` (ElarizT/timer_test): a database-activity
monitor with a 60-minute session timer.

The stateful Qt object `DatabaseMonitorUI` is modelled as an explicit record
`MonitorState` holding the mutable fields the timer logic touches
(`session_start`, `notification_sent`) together with the displayed widget
contents (`status_label`, `program_label`, `time_label`, `progress_bar`).
Wall-clock timestamps (`time.time()` floats) are modelled as rationals.
Side effects (desktop alerts via `send_notification`, error logging) are
modelled as an emitted event list.  The fallible database poll is modelled
by a `PollResult` value: either the fetched rows or an exception message.
-/

namespace TimerTest

/-- One row of the `sys.dm_exec_sessions` query result
(src/app.py lines 116-127); only `program_name` is ever consumed. -/
structure Row where
  session_id : Nat
  program_name : String
  login_name : String
  host_name : String
deriving DecidableEq, Repr

/-- Outcome of one poll attempt: either the fetched rows, or the message of
the exception raised while connecting/querying (src/app.py lines 113-137). -/
inductive PollResult where
  | ok (rows : List Row)
  | err (msg : String)
deriving DecidableEq, Repr

/-- An observable side effect of one tick: a desktop alert
(`send_notification`, src/app.py lines 104-110) or an error log entry
(src/app.py line 138). -/
inductive Event where
  | notify (title message : String)
  | logError (msg : String)
deriving DecidableEq, Repr

/-- The mutable state of `DatabaseMonitorUI` that the timer logic reads or
writes: `session_start` / `notification_sent` (src/app.py lines 19, 21) and
the widget contents set in `setup_ui` and `update_ui`. -/
structure MonitorState where
  session_start : Option ℚ
  notification_sent : Bool
  status_label : String
  program_label : String
  time_label : String
  progress_bar : Int
deriving DecidableEq, Repr

/-- `self.max_duration = 60 * 60` (src/app.py line 20), in seconds. -/
def max_duration : ℚ := 60 * 60

/-- Python `int(q)`: truncation toward zero. -/
def pythonInt (q : ℚ) : Int := if 0 ≤ q then ⌊q⌋ else ⌈q⌉

/-- Two-digit field of Python `str(timedelta(...))`. -/
def pad2 (n : Nat) : String := if n < 10 then "0" ++ toString n else toString n

/-- Python `str(timedelta(seconds=n))` for `0 ≤ n < 86400`: "H:MM:SS"
(src/app.py line 168). -/
def timedeltaStr (n : Nat) : String :=
  toString (n / 3600) ++ ":" ++ pad2 (n % 3600 / 60) ++ ":" ++ pad2 (n % 60)

/-- First half of `update_ui` (src/app.py lines 142-145): if activity is
reported while no session is running, capture the current time as
`session_start` and update the status and program labels. -/
def start_if_idle (s : MonitorState) (now : ℚ) (is_active : Bool)
    (program : String) : MonitorState :=
  if is_active = true ∧ s.session_start = none then
    { s with session_start := some now,
             status_label := "Activity detected! Monitoring...",
             program_label := "Program: " ++ program }
  else s

/-- Second half of `update_ui` (src/app.py lines 147-169): while a session
is running, compute elapsed/remaining; on expiry clear the session, notify,
and reset the one-shot flag, returning early; otherwise fire the one-shot
5-minute warning when due and refresh the progress bar and time label. -/
def run_timer (s : MonitorState) (now : ℚ) : MonitorState × List Event :=
  match s.session_start with
  | none => (s, [])
  | some start =>
    let elapsed := now - start
    let remaining := max_duration - elapsed
    if remaining ≤ 0 then
      ({ s with session_start := none,
                status_label := "Time's up! Session completed.",
                notification_sent := false },
       [Event.notify "Database Monitor" "Time's up! 60 minutes completed."])
    else
      let (s2, evs) :=
        if remaining ≤ 300 ∧ s.notification_sent = false then
          ({ s with notification_sent := true },
           [Event.notify "Database Monitor" "5 minutes remaining!"])
        else (s, [])
      ({ s2 with
           progress_bar := pythonInt (elapsed / max_duration * 100),
           time_label := "Time Remaining: " ++ timedeltaStr (pythonInt remaining).toNat },
       evs)

/-- `update_ui(is_active, program)` (src/app.py lines 141-169). -/
def update_ui (s : MonitorState) (now : ℚ) (is_active : Bool)
    (program : String) : MonitorState × List Event :=
  run_timer (start_if_idle s now is_active program) now

/-- `is_active = len(rows) > 0` (src/app.py line 132). -/
def pollActivity (rows : List Row) : Bool := decide (rows.length > 0)

/-- `program = rows[0].program_name if rows else "Unknown"`
(src/app.py line 133): the access to the first row is guarded by the
emptiness test, rendered here as a total match. -/
def pollProgram (rows : List Row) : String :=
  match rows with
  | [] => "Unknown"
  | r :: _ => r.program_name

/-- One tick of `check_database_activity` (src/app.py lines 112-139), with
the poll outcome passed in: on success derive the activity signal and
program name and run `update_ui`; on any exception log it and show it in
the status label, touching nothing else. -/
def check_database_activity (s : MonitorState) (now : ℚ) (pr : PollResult) :
    MonitorState × List Event :=
  match pr with
  | .ok rows => update_ui s now (pollActivity rows) (pollProgram rows)
  | .err msg =>
      ({ s with status_label := "Error: " ++ msg },
       [Event.logError ("Connection error: " ++ msg)])

/-- The state after `__init__` / `setup_ui` (src/app.py lines 19-21, 57-63):
no session, flag clear, the initial label texts; a Qt progress bar on which
`setValue` was never called reports value -1. -/
def initial_state : MonitorState :=
  { session_start := none
    notification_sent := false
    status_label := "Waiting for database activity..."
    program_label := "Program: None"
    time_label := "Time Remaining: --:--:--"
    progress_bar := -1 }

/-- One scheduled tick's input: the current wall-clock time and the poll
outcome. -/
structure Input where
  now : ℚ
  poll : PollResult
deriving DecidableEq, Repr

/-- Run a sequence of ticks, concatenating the emitted events. -/
def run (s : MonitorState) : List Input → MonitorState × List Event
  | [] => (s, [])
  | i :: rest =>
    let (s1, e1) := check_database_activity s i.now i.poll
    let (s2, e2) := run s1 rest
    (s2, e1 ++ e2)

/-- The 5-minute warning alert (src/app.py line 161). -/
def warnEvent : Event := Event.notify "Database Monitor" "5 minutes remaining!"

/-- The completion alert (src/app.py line 155). -/
def doneEvent : Event :=
  Event.notify "Database Monitor" "Time's up! 60 minutes completed."

/-- Number of 5-minute warnings in an event trace. -/
def countWarn (evs : List Event) : Nat :=
  (evs.filter (fun e => decide (e = warnEvent))).length

/-- A concrete running state used in witnesses and counterexamples:
a session started at time 0 with the flag clear. -/
def sampleRunning : MonitorState :=
  { session_start := some 0
    notification_sent := false
    status_label := "Activity detected! Monitoring..."
    program_label := "Program: Python"
    time_label := "Time Remaining: 1:00:00"
    progress_bar := 0 }

/-- A sample query-result row used in witnesses. -/
def sampleRow : Row :=
  { session_id := 51, program_name := "Python", login_name := "user", host_name := "HOST" }

theorem start_if_idle_of_some (s : MonitorState) (now st : ℚ) (a : Bool)
    (p : String) (hs : s.session_start = some st) :
    start_if_idle s now a p = s := by
  simp [start_if_idle, hs]

theorem start_if_idle_flag (s : MonitorState) (now : ℚ) (a : Bool) (p : String) :
    (start_if_idle s now a p).notification_sent = s.notification_sent := by
  unfold start_if_idle
  split <;> rfl

theorem run_cons (s : MonitorState) (i : Input) (rest : List Input) :
    run s (i :: rest) =
      ((run (check_database_activity s i.now i.poll).1 rest).1,
       (check_database_activity s i.now i.poll).2 ++
         (run (check_database_activity s i.now i.poll).1 rest).2) := rfl

theorem countWarn_append (a b : List Event) :
    countWarn (a ++ b) = countWarn a + countWarn b := by
  simp [countWarn, List.filter_append]

/-- Sanity check of the embedding: a no-activity tick at time 10 keeps the
sample session running. -/
theorem sanity_gap_tick : (check_database_activity sampleRunning 10 (.ok [])).1.session_start = some 0 := by
  norm_num [check_database_activity, update_ui, start_if_idle, run_timer, pollActivity, pollProgram, sampleRunning, max_duration]

/-- Sanity check: at time 3600 the sample session expires with exactly the
completion alert. -/
theorem sanity_expiry_tick : (check_database_activity sampleRunning 3600 (.ok [])).2 = [doneEvent] := by
  norm_num [check_database_activity, update_ui, start_if_idle, run_timer, pollActivity, pollProgram, sampleRunning, max_duration, doneEvent]

/-- Sanity check: at time 3599 (remaining 1 second) the 5-minute warning is
the only alert of the tick. -/
theorem sanity_warning_tick : (check_database_activity sampleRunning 3599 (.ok [])).2 = [warnEvent] := by
  norm_num [check_database_activity, update_ui, start_if_idle, run_timer, pollActivity, pollProgram, sampleRunning, max_duration, warnEvent]

/-- Sanity check: half-way through the session the progress bar shows 50. -/
theorem sanity_progress_tick : (check_database_activity sampleRunning 1800 (.ok [])).1.progress_bar = 50 := by
  norm_num [check_database_activity, update_ui, start_if_idle, run_timer, pollActivity, pollProgram, sampleRunning, max_duration, pythonInt]

/-- Sanity check: half-way through the session the time label shows 0:30:00. -/
theorem sanity_time_label_tick : (check_database_activity sampleRunning 1800 (.ok [])).1.time_label = "Time Remaining: 0:30:00" := by
  norm_num [check_database_activity, update_ui, start_if_idle, run_timer, pollActivity, pollProgram, sampleRunning, max_duration, pythonInt]
  decide

/-- C1: on every tick of a running session at which the remaining time is
≤ 0, the timer fires exactly one completion notification
("Time's up! 60 minutes completed."), clears `session_start`, and resets
the one-shot flag to false, returning the machine to Idle. -/
theorem expiry_tick_completes (s : MonitorState) (now st : ℚ) (rows : List Row)
    (hs : s.session_start = some st)
    (hrem : max_duration - (now - st) ≤ 0) :
    (check_database_activity s now (.ok rows)).2 = [doneEvent] ∧
    (check_database_activity s now (.ok rows)).1.session_start = none ∧
    (check_database_activity s now (.ok rows)).1.notification_sent = false := by
  simp only [check_database_activity, update_ui,
    start_if_idle_of_some s now st (pollActivity rows) (pollProgram rows) hs]
  simp [run_timer, hs, hrem, doneEvent]

/-- Witness for C1 at a concrete expiry tick. -/
theorem expiry_tick_completes_witness :
    (sampleRunning.session_start = some 0 ∧
       max_duration - ((3600 : ℚ) - 0) ≤ 0) ∧
    ((check_database_activity sampleRunning 3600 (.ok [])).2 = [doneEvent] ∧
     (check_database_activity sampleRunning 3600 (.ok [])).1.session_start = none ∧
     (check_database_activity sampleRunning 3600 (.ok [])).1.notification_sent = false) :=
  ⟨⟨rfl, by norm_num [max_duration]⟩,
   expiry_tick_completes sampleRunning 3600 0 [] rfl (by norm_num [max_duration])⟩

/-- C9: on the expiry tick the progress bar and the remaining-time label are
not touched: `update_ui` returns before the display-update step, so both
retain the values written on the previous running tick. -/
theorem expiry_tick_frame (s : MonitorState) (now st : ℚ) (rows : List Row)
    (hs : s.session_start = some st)
    (hrem : max_duration - (now - st) ≤ 0) :
    (check_database_activity s now (.ok rows)).1.progress_bar = s.progress_bar ∧
    (check_database_activity s now (.ok rows)).1.time_label = s.time_label := by
  simp only [check_database_activity, update_ui,
    start_if_idle_of_some s now st (pollActivity rows) (pollProgram rows) hs]
  simp [run_timer, hs, hrem]

/-- Witness for C9 at a concrete expiry tick. -/
theorem expiry_tick_frame_witness :
    (sampleRunning.session_start = some 0 ∧
       max_duration - ((3700 : ℚ) - 0) ≤ 0) ∧
    ((check_database_activity sampleRunning 3700 (.ok [])).1.progress_bar =
       sampleRunning.progress_bar ∧
     (check_database_activity sampleRunning 3700 (.ok [])).1.time_label =
       sampleRunning.time_label) :=
  ⟨⟨rfl, by norm_num [max_duration]⟩,
   expiry_tick_frame sampleRunning 3700 0 [] rfl (by norm_num [max_duration])⟩

/-- C4: a connection/query failure on a tick is logged and rendered as an
error status string, and leaves every other piece of state — session start,
one-shot flag, progress display, time label, program label — exactly as it
was before the tick; the tick is total, so the failure never propagates. -/
theorem error_tick_preserves_state (s : MonitorState) (now : ℚ) (msg : String) :
    (check_database_activity s now (.err msg)).1.session_start = s.session_start ∧
    (check_database_activity s now (.err msg)).1.notification_sent = s.notification_sent ∧
    (check_database_activity s now (.err msg)).1.progress_bar = s.progress_bar ∧
    (check_database_activity s now (.err msg)).1.time_label = s.time_label ∧
    (check_database_activity s now (.err msg)).1.program_label = s.program_label ∧
    (check_database_activity s now (.err msg)).1.status_label = "Error: " ++ msg ∧
    (check_database_activity s now (.err msg)).2 =
      [Event.logError ("Connection error: " ++ msg)] := by
  simp [check_database_activity]

/-- C7: a tick reporting activity while the timer is Idle starts a session:
`session_start` is set to the current time, the status text is updated, and
the program label shows the program name of the first reported row. -/
theorem activity_tick_starts_session (s : MonitorState) (now : ℚ) (r : Row)
    (rest : List Row) (hs : s.session_start = none) :
    (check_database_activity s now (.ok (r :: rest))).1.session_start = some now ∧
    (check_database_activity s now (.ok (r :: rest))).1.status_label =
      "Activity detected! Monitoring..." ∧
    (check_database_activity s now (.ok (r :: rest))).1.program_label =
      "Program: " ++ r.program_name := by
  have h1 : start_if_idle s now (pollActivity (r :: rest)) (pollProgram (r :: rest)) =
      { s with session_start := some now,
               status_label := "Activity detected! Monitoring...",
               program_label := "Program: " ++ r.program_name } := by
    simp [start_if_idle, pollActivity, pollProgram, hs]
  simp only [check_database_activity, update_ui, h1]
  norm_num [run_timer, max_duration]

/-- Witness for C7 at a concrete idle tick with one reported row. -/
theorem activity_tick_starts_session_witness :
    initial_state.session_start = none ∧
    ((check_database_activity initial_state 5 (.ok [sampleRow])).1.session_start = some 5 ∧
     (check_database_activity initial_state 5 (.ok [sampleRow])).1.status_label =
       "Activity detected! Monitoring..." ∧
     (check_database_activity initial_state 5 (.ok [sampleRow])).1.program_label =
       "Program: " ++ sampleRow.program_name) :=
  ⟨rfl, activity_tick_starts_session initial_state 5 sampleRow [] rfl⟩

/-- C8: a successful poll reports activity iff the result set is non-empty,
and reports the program name of the first row when one exists and "Unknown"
otherwise; both functions are total, so the empty result set is safe. -/
theorem poll_report_semantics (rows : List Row) :
    (pollActivity rows = true ↔ rows ≠ []) ∧
    (∀ (r : Row) (rest : List Row), rows = r :: rest →
        pollProgram rows = r.program_name) ∧
    (rows = [] → pollProgram rows = "Unknown") := by
  cases rows <;> simp [pollActivity, pollProgram]

/-- Witness for C8 on concrete non-empty and empty result sets. -/
theorem poll_report_semantics_witness :
    ((pollActivity [sampleRow] = true ↔ [sampleRow] ≠ []) ∧
     (∀ (r : Row) (rest : List Row), [sampleRow] = r :: rest →
         pollProgram [sampleRow] = r.program_name) ∧
     ([sampleRow] = ([] : List Row) → pollProgram [sampleRow] = "Unknown")) ∧
    pollProgram [] = "Unknown" :=
  ⟨poll_report_semantics [sampleRow], rfl⟩

/-- C10: while a session is running the program label is never rewritten:
a tick with any poll outcome — activity with a different program, no
activity, or an error — leaves `program_label` unchanged, since the label
is written only on the Idle-to-Running transition. -/
theorem running_program_label_frozen (s : MonitorState) (now st : ℚ)
    (pr : PollResult) (hs : s.session_start = some st) :
    (check_database_activity s now pr).1.program_label = s.program_label := by
  cases pr with
  | err msg => simp [check_database_activity]
  | ok rows =>
    simp only [check_database_activity, update_ui,
      start_if_idle_of_some s now st (pollActivity rows) (pollProgram rows) hs]
    by_cases hrem : max_duration - (now - st) ≤ 0
    · simp [run_timer, hs, hrem]
    · simp [run_timer, hs, hrem]
      split <;> rfl

/-- Witness for C10: a running tick that reports a different program name
leaves the label frozen. -/
theorem running_program_label_frozen_witness :
    sampleRunning.session_start = some 0 ∧
    (check_database_activity sampleRunning 100
        (.ok [{ sampleRow with program_name := "OtherApp" }])).1.program_label =
      sampleRunning.program_label :=
  ⟨rfl, running_program_label_frozen sampleRunning 100 0
    (.ok [{ sampleRow with program_name := "OtherApp" }]) rfl⟩

/-- C3 counterexample: a running session (started at time 0, remaining time
still positive at time 10) receives a tick whose poll reports no activity;
contrary to the claim, the timer does not return to Idle — `session_start`
stays set. -/
theorem activity_gap_counterexample :
    sampleRunning.session_start = some 0 ∧
    (0 : ℚ) < max_duration - (10 - 0) ∧
    ¬((check_database_activity sampleRunning 10 (.ok [])).1.session_start = none) := by
  refine ⟨rfl, by norm_num [max_duration], ?_⟩
  have h : (check_database_activity sampleRunning 10 (.ok [])).1.session_start = some 0 := by
    norm_num [check_database_activity, update_ui, start_if_idle, run_timer,
      pollActivity, pollProgram, sampleRunning, max_duration]
  rw [h]
  exact fun hc => Option.noConfusion hc

/-- C3 amended: a tick reporting no activity while the timer is running
with remaining time positive leaves the session running with the same
`session_start` — the state machine ignores gaps in detected activity, and
a session ends only when its remaining time reaches 0. -/
theorem no_activity_tick_keeps_running (s : MonitorState) (now st : ℚ)
    (hs : s.session_start = some st)
    (hpos : 0 < max_duration - (now - st)) :
    (check_database_activity s now (.ok [])).1.session_start = some st := by
  have hrem : ¬(max_duration - (now - st) ≤ 0) := not_le.mpr hpos
  simp only [check_database_activity, update_ui,
    start_if_idle_of_some s now st (pollActivity []) (pollProgram []) hs]
  simp [run_timer, hs, hrem]
  split <;> simp [hs]

/-- Witness for the amended C3 at a concrete no-activity tick. -/
theorem no_activity_tick_keeps_running_witness :
    (sampleRunning.session_start = some 0 ∧
       (0 : ℚ) < max_duration - (10 - 0)) ∧
    (check_database_activity sampleRunning 10 (.ok [])).1.session_start = some 0 :=
  ⟨⟨rfl, by norm_num [max_duration]⟩,
   no_activity_tick_keeps_running sampleRunning 10 0 rfl (by norm_num [max_duration])⟩

/-- C5: on every running tick with elapsed time in [0, 3600), the progress
bar is set to the integer truncation of elapsed/3600 × 100, which for
nonnegative elapsed is the floor, and lies in [0, 100). -/
theorem progress_display_value (s : MonitorState) (now st : ℚ) (rows : List Row)
    (hs : s.session_start = some st)
    (h0 : 0 ≤ now - st) (h1 : now - st < 3600) :
    (check_database_activity s now (.ok rows)).1.progress_bar =
      ⌊(now - st) / 3600 * 100⌋ ∧
    0 ≤ (check_database_activity s now (.ok rows)).1.progress_bar ∧
    (check_database_activity s now (.ok rows)).1.progress_bar < 100 := by
  have hq0 : (0 : ℚ) ≤ (now - st) / 3600 * 100 := by positivity
  have hq1 : (now - st) / 3600 * 100 < 100 := by
    have h2 : (now - st) / 3600 < 1 := (div_lt_one (by norm_num)).mpr h1
    nlinarith
  have hrem : ¬(max_duration - (now - st) ≤ 0) := by
    rw [not_le, max_duration]
    linarith
  have hmain : (check_database_activity s now (.ok rows)).1.progress_bar =
      pythonInt ((now - st) / max_duration * 100) := by
    simp only [check_database_activity, update_ui,
      start_if_idle_of_some s now st (pollActivity rows) (pollProgram rows) hs]
    simp [run_timer, hs, hrem]
  have hfloor : pythonInt ((now - st) / max_duration * 100) =
      ⌊(now - st) / 3600 * 100⌋ := by
    rw [pythonInt, max_duration]
    norm_num
    intro hneg
    exact absurd hq0 (by norm_num; linarith)
  refine ⟨hmain.trans hfloor, ?_, ?_⟩
  · rw [hmain, hfloor]
    exact Int.floor_nonneg.mpr hq0
  · rw [hmain, hfloor]
    refine Int.floor_lt.mpr ?_
    exact_mod_cast hq1

/-- Witness for C5 at the concrete half-way tick: elapsed 1800 gives 50. -/
theorem progress_display_value_witness :
    (sampleRunning.session_start = some 0 ∧ (0 : ℚ) ≤ 1800 - 0 ∧
       (1800 : ℚ) - 0 < 3600) ∧
    ((check_database_activity sampleRunning 1800 (.ok [])).1.progress_bar =
       ⌊((1800 : ℚ) - 0) / 3600 * 100⌋ ∧
     0 ≤ (check_database_activity sampleRunning 1800 (.ok [])).1.progress_bar ∧
     (check_database_activity sampleRunning 1800 (.ok [])).1.progress_bar < 100) :=
  ⟨⟨rfl, by norm_num, by norm_num⟩,
   progress_display_value sampleRunning 1800 0 [] rfl (by norm_num) (by norm_num)⟩

theorem start_if_idle_cases (s : MonitorState) (now : ℚ) (a : Bool) (p : String) :
    start_if_idle s now a p = s ∨
    (start_if_idle s now a p).session_start = some now := by
  unfold start_if_idle
  split
  · right; rfl
  · left; rfl

theorem run_timer_idle_flag (s : MonitorState) (now : ℚ)
    (h : s.session_start = none → s.notification_sent = false) :
    (run_timer s now).1.session_start = none →
    (run_timer s now).1.notification_sent = false := by
  cases hss : s.session_start with
  | none => simpa [run_timer, hss] using h hss
  | some st =>
    by_cases hrem : max_duration - (now - st) ≤ 0
    · simp [run_timer, hss, hrem]
    · simp [run_timer, hss, hrem]
      split <;> simp [hss]

theorem tick_idle_flag (s : MonitorState) (now : ℚ) (pr : PollResult)
    (h : s.session_start = none → s.notification_sent = false) :
    (check_database_activity s now pr).1.session_start = none →
    (check_database_activity s now pr).1.notification_sent = false := by
  cases pr with
  | err msg => simpa [check_database_activity] using h
  | ok rows =>
    simp only [check_database_activity, update_ui]
    apply run_timer_idle_flag
    rcases start_if_idle_cases s now (pollActivity rows) (pollProgram rows) with he | hsome
    · rw [he]; exact h
    · intro hn
      rw [hsome] at hn
      exact absurd hn (by simp)

theorem run_idle_flag (inputs : List Input) :
    ∀ s : MonitorState, (s.session_start = none → s.notification_sent = false) →
      (run s inputs).1.session_start = none →
      (run s inputs).1.notification_sent = false := by
  induction inputs with
  | nil => intro s h; simpa [run] using h
  | cons i rest ih =>
    intro s h
    simp only [run_cons]
    exact ih _ (tick_idle_flag s i.now i.poll h)

/-- C6: in every state reachable from the initial state, if `session_start`
is cleared (Idle) then the one-shot threshold flag is false — in particular
after a completion, so every newly started session may emit the 5-minute
warning. -/
theorem idle_state_flag_clear (inputs : List Input)
    (h : (run initial_state inputs).1.session_start = none) :
    (run initial_state inputs).1.notification_sent = false :=
  run_idle_flag inputs initial_state (fun _ => rfl) h

/-- Witness for C6 on a concrete trace: a session starts at time 0 and
expires at time 4000, leaving an Idle state whose flag is clear. -/
theorem idle_state_flag_clear_witness :
    (run initial_state [⟨0, .ok [sampleRow]⟩, ⟨4000, .ok []⟩]).1.session_start = none ∧
    (run initial_state [⟨0, .ok [sampleRow]⟩, ⟨4000, .ok []⟩]).1.notification_sent = false := by
  have h : (run initial_state [⟨0, .ok [sampleRow]⟩, ⟨4000, .ok []⟩]).1.session_start = none := by
    norm_num [run, check_database_activity, update_ui, start_if_idle, run_timer,
      pollActivity, pollProgram, initial_state, max_duration, sampleRow]
  exact ⟨h, idle_state_flag_clear [⟨0, .ok [sampleRow]⟩, ⟨4000, .ok []⟩] h⟩

theorem run_timer_warn_cases (s : MonitorState) (now : ℚ) :
    (s.notification_sent = false ∧ (run_timer s now).2 = [warnEvent] ∧
     (run_timer s now).1.notification_sent = true) ∨
    (countWarn (run_timer s now).2 = 0 ∧
     ((run_timer s now).1.notification_sent = s.notification_sent ∨
      doneEvent ∈ (run_timer s now).2)) := by
  cases hss : s.session_start with
  | none => right; simp [run_timer, hss, countWarn]
  | some st =>
    by_cases hrem : max_duration - (now - st) ≤ 0
    · right
      refine ⟨?_, Or.inr ?_⟩ <;> simp [run_timer, hss, hrem, countWarn, warnEvent, doneEvent]
    · by_cases hw : max_duration - (now - st) ≤ 300 ∧ s.notification_sent = false
      · left
        refine ⟨hw.2, ?_, ?_⟩ <;>
          · simp only [run_timer, hss]
            rw [if_neg hrem, if_pos hw]
            try rfl
      · right
        refine ⟨?_, Or.inl ?_⟩ <;>
          · simp only [run_timer, hss]
            rw [if_neg hrem, if_neg hw]
            try rfl

theorem tick_warn_cases (s : MonitorState) (now : ℚ) (pr : PollResult) :
    (s.notification_sent = false ∧
     (check_database_activity s now pr).2 = [warnEvent] ∧
     (check_database_activity s now pr).1.notification_sent = true) ∨
    (countWarn (check_database_activity s now pr).2 = 0 ∧
     ((check_database_activity s now pr).1.notification_sent = s.notification_sent ∨
      doneEvent ∈ (check_database_activity s now pr).2)) := by
  cases pr with
  | err msg => right; simp [check_database_activity, countWarn, warnEvent]
  | ok rows =>
    simp only [check_database_activity, update_ui]
    have hflag := start_if_idle_flag s now (pollActivity rows) (pollProgram rows)
    rcases run_timer_warn_cases (start_if_idle s now (pollActivity rows) (pollProgram rows))
        now with ⟨h1, h2, h3⟩ | ⟨h1, h2⟩
    · exact Or.inl ⟨hflag.symm.trans h1, h2, h3⟩
    · refine Or.inr ⟨h1, ?_⟩
      rcases h2 with h2 | h2
      · exact Or.inl (h2.trans hflag)
      · exact Or.inr h2

theorem run_warn_bound (inputs : List Input) :
    ∀ s : MonitorState, doneEvent ∉ (run s inputs).2 →
      countWarn (run s inputs).2 ≤ 1 ∧
      (s.notification_sent = true → countWarn (run s inputs).2 = 0) := by
  induction inputs with
  | nil => intro s _; simp [run, countWarn]
  | cons i rest ih =>
    intro s hdone
    simp only [run_cons] at hdone ⊢
    rw [List.mem_append] at hdone
    push_neg at hdone
    obtain ⟨hd1, hd2⟩ := hdone
    obtain ⟨ihle, ihz⟩ := ih (check_database_activity s i.now i.poll).1 hd2
    rw [countWarn_append]
    rcases tick_warn_cases s i.now i.poll with ⟨h1, h2, h3⟩ | ⟨h1, h2⟩
    · have hz := ihz h3
      have hw1 : countWarn (check_database_activity s i.now i.poll).2 = 1 := by
        rw [h2]; decide
      constructor
      · rw [hw1, hz]
      · intro ht
        rw [h1] at ht
        exact absurd ht (by decide)
    · have hflag : (check_database_activity s i.now i.poll).1.notification_sent =
          s.notification_sent := by
        rcases h2 with h | h
        · exact h
        · exact absurd h hd1
      constructor
      · rw [h1]; simpa using ihle
      · intro ht
        rw [h1, ihz (hflag.trans ht)]

/-- C2: on a running tick whose remaining time is positive, at most 300
seconds, and whose one-shot flag is clear, the "5 minutes remaining!"
notification fires and the flag is set; and across any trace in which the
session does not complete, the warning is emitted at most once. -/
theorem warning_fires_once (s : MonitorState) (now st : ℚ) (rows : List Row)
    (hs : s.session_start = some st)
    (hpos : 0 < max_duration - (now - st))
    (hwin : max_duration - (now - st) ≤ 300)
    (hflag : s.notification_sent = false) :
    ((check_database_activity s now (.ok rows)).2 = [warnEvent] ∧
     (check_database_activity s now (.ok rows)).1.notification_sent = true) ∧
    ∀ inputs : List Input, doneEvent ∉ (run s inputs).2 →
      countWarn (run s inputs).2 ≤ 1 := by
  constructor
  · have hrem : ¬(max_duration - (now - st) ≤ 0) := not_le.mpr hpos
    simp only [check_database_activity, update_ui,
      start_if_idle_of_some s now st (pollActivity rows) (pollProgram rows) hs]
    constructor <;>
      · simp only [run_timer, hs]
        rw [if_neg hrem, if_pos ⟨hwin, hflag⟩]
        try rfl
  · intro inputs hdone
    exact (run_warn_bound inputs s hdone).1

/-- Witness for C2 at a concrete warning tick (remaining 200 seconds). -/
theorem warning_fires_once_witness :
    (sampleRunning.session_start = some 0 ∧
       (0 : ℚ) < max_duration - (3400 - 0) ∧
       max_duration - ((3400 : ℚ) - 0) ≤ 300 ∧
       sampleRunning.notification_sent = false) ∧
    (((check_database_activity sampleRunning 3400 (.ok [])).2 = [warnEvent] ∧
      (check_database_activity sampleRunning 3400 (.ok [])).1.notification_sent = true) ∧
     ∀ inputs : List Input, doneEvent ∉ (run sampleRunning inputs).2 →
       countWarn (run sampleRunning inputs).2 ≤ 1) :=
  ⟨⟨rfl, by norm_num [max_duration], by norm_num [max_duration], rfl⟩,
   warning_fires_once sampleRunning 3400 0 [] rfl
     (by norm_num [max_duration]) (by norm_num [max_duration]) rfl⟩

end TimerTest
